import Mathlib

/-!
Shallow embedding of `src/problem1/run_qiopt_cli.py` and proofs about it.

The script drives a remote job workflow against an opaque cloud-platform
client (login, put_file, create_process, describe_process,
get_process_output, get_file).  We embed the script as pure Lean
functions: the filesystem and the remote client are modelled by explicit
parameters (`Env`, `Oracle`), every side effect (client call, printed
line) is recorded in an event trace, and the polling `while` loop is a
fuel-bounded recursion.  Wall-clock details (the timestamp prefix of
`print_status`, `time.sleep(1)`) are elided: only the message bodies and
the call sequence are modelled.  Python exception messages are modelled
by fixed sanitized strings.
-/

namespace QioptCli

/-- Model of a `pathlib.Path` value: a parent directory string and a base
filename, as the script only ever uses `.name`, `.parent` and
`.with_name`. -/
structure Path where
  parent : String
  name : String
deriving DecidableEq, Repr

/-- String rendering of a path, as an f-string renders a `Path`. -/
def Path.toString (p : Path) : String := p.parent ++ "/" ++ p.name

/-- Model of `Path.with_name`: same parent, new base filename. -/
def Path.with_name (p : Path) (n : String) : Path := ⟨p.parent, n⟩

/-- Module constant `CLOUD_PLATFORM_URL` of the script. -/
def CLOUD_PLATFORM_URL : String := "https://cloudos.qboard.tech"

/-- Module constant `WORKSPACE_ID` of the script. -/
def WORKSPACE_ID : String := "workspace-59693eed57c441bc9aa5af4a8b931be8"

/-- Module constant `IMAGE_NAME` of the script. -/
def IMAGE_NAME : String := "cloud-platform-quantum-modules-qboard"

/-- One invocation of the remote client library, with its arguments. -/
inductive ClientCall where
  | login (username password : String)
  | put_file (source_path dest_path workspace_id : String)
  | create_process (workspace_id image name cpu ram : String)
      (gpu : Nat) (command : String) (args : List String)
  | describe_process (id : String)
  | get_process_output (id : String)
  | get_file (source_path dest_path workspace_id : String)
deriving DecidableEq, Repr

/-- An observable effect of the script: a remote-client call or a line
printed by `print_status` (timestamp prefix elided). -/
inductive Event where
  | call (c : ClientCall)
  | printed (msg : String)
deriving DecidableEq, Repr

/-- The Python exceptions the script can raise, with their messages. -/
inductive PyError where
  | fileNotFound (msg : String)
  | valueError (msg : String)
  | attributeError (msg : String)
  | unboundLocal (msg : String)
deriving DecidableEq, Repr

/-- Message carried by an exception, as interpolated into `f"... {e}"`. -/
def PyError.msg : PyError → String
  | .fileNotFound m => m
  | .valueError m => m
  | .attributeError m => m
  | .unboundLocal m => m

/-- Outcome of `process_file` / `run_cloudos_task`: normal return, a
raised exception, or the polling loop still running when the fuel bound
is reached (the real script would simply still be sleeping/polling). -/
inductive TaskResult where
  | ok
  | err (e : PyError)
  | outOfFuel
deriving DecidableEq, Repr

/-- Outcome of the polling `while` loop alone. -/
inductive PollResult where
  | completed
  | failed (msg : String)
  | outOfFuel
deriving DecidableEq, Repr

/-- Outcome of the `__main__` block: `exit`/fall-off-the-end with a code,
an exception escaping uncaught (the interpreter then exits with code 1),
or still polling at the fuel bound. -/
inductive MainResult where
  | exited (code : Nat)
  | crashed (e : PyError)
  | stillPolling
deriving DecidableEq, Repr

/-- Process exit code an observer sees, when the run terminates: an
uncaught exception makes the interpreter exit with code 1. -/
def MainResult.exitCode : MainResult → Option Nat
  | .exited c => some c
  | .crashed _ => some 1
  | .stillPolling => none

/-- The local filesystem as the script observes it: which paths exist,
which directories exist, and what opening + reading a file yields
(`.error ()` models an `OSError` on open/read). -/
structure Env where
  pathExists : Path → Bool
  dirExists : String → Bool
  readLines : Path → Except Unit (List String)

/-- The remote platform as the script observes it: the process id, the
status returned by `create_process`, the status returned by the k-th
`describe_process` call, and the process output text. -/
structure Oracle where
  processId : String
  createStatus : String
  describeStatus : Nat → String
  processOutput : String

/-- Parsed command-line arguments (`args` after `parser.parse_args()`). -/
structure Args where
  input_file : Path
  output_file : Option Path
  user_data_file : Path
  gpu : Bool
  run_id : Int

/-- The in-progress status list of line 89 of the script. -/
def whitelist : List String := ["CREATED", "SUBMITTED", "RUNNING", "COMPLETED"]

/-- Remote output filename: `output_file_path.name` when an output path
was given, else the literal `Path("output.json")` (lines 45-48). -/
def outputFilename : Option Path → String
  | some p => p.name
  | none => "output.json"

/-- Solver argument list `default_args` (lines 57-72), with `--gpu`
appended when `use_gpu` is set. -/
def default_args (input_filename output_filename : String) (use_gpu : Bool) :
    List String :=
  let base : List String :=
    ["solve",
     "--matrix", "/workspace/" ++ input_filename,
     "--num-runs", "10",
     "--num-steps", "1000",
     "--output", "/workspace/" ++ output_filename,
     "--verbose", "1"]
  if use_gpu then base ++ ["--gpu"] else base

/-- Events of `run_cloudos_task` up to and including process creation
(lines 43-87): login, upload, create, and the progress prints. -/
def preEvents (input_file_path : Path) (output_file_path : Option Path)
    (use_gpu : Bool) (username password : String) : List Event :=
  [.call (.login username password),
   .printed ("Loading file " ++ Path.toString input_file_path ++ " on the server..."),
   .call (.put_file (Path.toString input_file_path) input_file_path.name WORKSPACE_ID),
   .printed ("File " ++ input_file_path.name ++ " loaded on the server."),
   .printed "Creating process...",
   .call (.create_process WORKSPACE_ID IMAGE_NAME "run qiopt" "4" "4"
     (if use_gpu then 1 else 0) "qiopt"
     (default_args input_file_path.name (outputFilename output_file_path) use_gpu)),
   .printed "Process created.",
   .printed "Waiting for process to complete..."]

/-- Events after the polling loop exits normally (lines 96-100): the
completion print, `get_process_output`, and the output print. -/
def successEvents (o : Oracle) : List Event :=
  [.printed "Process completed.",
   .call (.get_process_output o.processId),
   .printed ("Process_output: " ++ o.processOutput)]

/-- Events of the final download step (lines 102-106): `get_file` to the
local output path when one was given, nothing otherwise. -/
def downloadEvents (output_file_path : Option Path) : List Event :=
  match output_file_path with
  | some p =>
      [.printed ("Getting output file " ++ p.name ++ " from the server..."),
       .call (.get_file p.name (Path.toString p) WORKSPACE_ID),
       .printed ("File saved locally to " ++ Path.toString p ++ ".")]
  | none => []

/-- The polling `while` loop (lines 88-95), as a fuel-bounded recursion.
`status` is the status of the current process descriptor, `k` counts the
`describe_process` calls made so far.  Each unit of fuel allows one
evaluation of the `while` condition.  The traced events per iteration:
the in-progress branch sleeps (not modelled) and re-describes; any other
non-COMPLETED status fetches the process output, prints, and raises. -/
def pollLoop (o : Oracle) (status : String) (k : Nat) : Nat → PollResult × List Event
  | 0 => (.outOfFuel, [])
  | fuel + 1 =>
    if status = "COMPLETED" then (.completed, [])
    else if status ∈ whitelist then
      let r := pollLoop o (o.describeStatus k) (k + 1) fuel
      (r.1, .call (.describe_process o.processId) :: r.2)
    else
      (.failed o.processOutput,
       [.call (.get_process_output o.processId),
        .printed "The process was not completed normally"])

/-- Embedding of `run_cloudos_task` (lines 39-106): login, upload,
create, poll, then fetch the output and optionally download the result
file.  A `.failed` poll result is the `raise ValueError(msg)` of line
94. -/
def run_cloudos_task (input_file_path : Path) (output_file_path : Option Path)
    (use_gpu : Bool) (username password : String) (o : Oracle) (fuel : Nat) :
    TaskResult × List Event :=
  let pre := preEvents input_file_path output_file_path use_gpu username password
  let poll := pollLoop o o.createStatus 0 fuel
  match poll.1 with
  | .outOfFuel => (.outOfFuel, pre ++ poll.2)
  | .failed msg => (.err (.valueError msg), pre ++ poll.2)
  | .completed =>
      (.ok, pre ++ poll.2 ++ successEvents o ++ downloadEvents output_file_path)

/-- Outcome of the credential-reading `try` block (lines 29-34). -/
inductive CredResult where
  | ok (username password : String)
  | osError
  | unpackError
deriving DecidableEq, Repr

/-- Sanitized message of the `ValueError` Python raises when unpacking a
list of fewer than two elements (line 31 with a short file). -/
def unpackMsg : String := "not enough values to unpack (expected 2)"

/-- Sanitized message of the `UnboundLocalError` Python raises at line 36
when the `except OSError` branch ran and `username` was never bound. -/
def unboundMsg : String := "local variable username referenced before assignment"

/-- Sanitized message of the `AttributeError` Python raises when
evaluating `output_file_path.parent` with `output_file_path = None`
(line 27 with no output path). -/
def noneParentMsg : String := "NoneType object has no attribute parent"

/-- Sanitized message of the `AttributeError` Python raises when
evaluating `args.output_file.with_name(...)` with `args.output_file =
None` (line 120 with no output path). -/
def noneWithNameMsg : String := "NoneType object has no attribute with_name"

/-- Credential loading (lines 30-31): `islice(f, 2)` takes at most the
first two lines, each is stripped, and the unpacking into
`username, password` raises `ValueError` when fewer than two lines were
read; an `OSError` on open/read is caught at line 33. -/
def loadCredentials (r : Except Unit (List String)) : CredResult :=
  match r with
  | .error _ => .osError
  | .ok lines =>
      match (lines.take 2).map String.trim with
      | [u, p] => .ok u p
      | _ => .unpackError

/-- The output-directory check of lines 23-24: skipped when no output
path was given, else a `FileNotFoundError` naming the parent directory
when it does not exist. -/
def checkOutputDir (env : Env) : Option Path → Option PyError
  | none => none
  | some p =>
      if env.dirExists p.parent then none
      else some (.fileNotFound ("Output directory does not exist: " ++ p.parent))

/-- The error raised at line 27 when the user-data file is missing.  The
message interpolates `output_file_path.parent` — the OUTPUT path, not
the user-data path — and with no output path the f-string itself raises
`AttributeError` on `None.parent` before the `FileNotFoundError` is
constructed. -/
def userDataMissingError : Option Path → PyError
  | some p => .fileNotFound ("User data file does not exist: " ++ p.parent)
  | none => .attributeError noneParentMsg

/-- Embedding of `process_file` (lines 17-36): the three existence
checks, the credential read, then `run_cloudos_task`.  After a caught
`OSError`, line 36 references the never-bound `username`, raising
`UnboundLocalError` before any client call. -/
def process_file (env : Env) (input_file_path : Path)
    (output_file_path : Option Path) (use_gpu : Bool) (user_data_path : Path)
    (o : Oracle) (fuel : Nat) : TaskResult × List Event :=
  if env.pathExists input_file_path = false then
    (.err (.fileNotFound ("Input file not found: " ++ Path.toString input_file_path)), [])
  else
    match checkOutputDir env output_file_path with
    | some e => (.err e, [])
    | none =>
      if env.pathExists user_data_path = false then
        (.err (userDataMissingError output_file_path), [])
      else
        match loadCredentials (env.readLines user_data_path) with
        | .unpackError => (.err (.valueError unpackMsg), [])
        | .osError =>
            (.err (.unboundLocal unboundMsg),
             [.printed ("ERROR: Could not open/read file: " ++ user_data_path.name)])
        | .ok username password =>
            let r := run_cloudos_task input_file_path output_file_path use_gpu
              username password o fuel
            (r.1, .printed ("username=" ++ username) :: r.2)

/-- The run-id prefixing of lines 119-122: when `run_id` is not the
sentinel `-1`, the output filename is prefixed with the run id; with no
output path this evaluates `None.with_name`, raising `AttributeError`
outside the `try` block. -/
def resolveOutputPath (run_id : Int) (output_file : Option Path) :
    Except PyError (Option Path) :=
  if run_id = -1 then .ok output_file
  else
    match output_file with
    | some p => .ok (some (p.with_name (ToString.toString run_id ++ "_" ++ p.name)))
    | none => .error (.attributeError noneWithNameMsg)

/-- Embedding of the `__main__` block (lines 117-131): compute the
prefixed output path (outside the `try`, so a failure there is an
uncaught crash), then run `process_file` under the two `except`
handlers; a `FileNotFoundError` and any other exception both print and
exit with code 1, normal return exits with code 0. -/
def main (a : Args) (env : Env) (o : Oracle) (fuel : Nat) :
    MainResult × List Event :=
  match resolveOutputPath a.run_id a.output_file with
  | .error e => (.crashed e, [])
  | .ok output_file_path =>
      let r := process_file env a.input_file output_file_path a.gpu
        a.user_data_file o fuel
      match r.1 with
      | .ok => (.exited 0, r.2)
      | .outOfFuel => (.stillPolling, r.2)
      | .err (.fileNotFound m) =>
          (.exited 1, r.2 ++ [.printed ("Error: " ++ m)])
      | .err e =>
          (.exited 1, r.2 ++ [.printed ("An unexpected error occurred: " ++ e.msg)])

/-- Whether an event is a remote-client call (any of the six client
operations). -/
def isClientCall : Event → Bool
  | .call _ => true
  | .printed _ => false

/-- Whether an event is a `get_file` download call. -/
def isGetFile : Event → Bool
  | .call (.get_file _ _ _) => true
  | _ => false

/-- Whether an event is a `describe_process` call. -/
def isDescribe : Event → Bool
  | .call (.describe_process _) => true
  | _ => false

/-! Concrete fixtures used to evaluate the embedding on closed inputs. -/

/-- A concrete input path. -/
def exPath : Path := ⟨"data", "matrix.txt"⟩

/-- A concrete output path. -/
def outP : Path := ⟨"out", "res.json"⟩

/-- A concrete user-data (credentials) path. -/
def udP : Path := ⟨"creds", "USER_DATA.txt"⟩

/-- A remote oracle whose process completes immediately. -/
def exOracle : Oracle := ⟨"pid-1", "COMPLETED", fun _ => "COMPLETED", "result-text"⟩

/-- A remote oracle whose process is in a non-whitelisted status. -/
def failOracle : Oracle := ⟨"pid-2", "FAILED", fun _ => "FAILED", "stack trace"⟩

/-- A filesystem on which no path exists and every read fails. -/
def envNothing : Env := ⟨fun _ => false, fun _ => false, fun _ => .error ()⟩

/-- A filesystem on which everything exists except the user-data file. -/
def envNoUserData : Env :=
  ⟨fun p => decide (p ≠ udP), fun _ => true, fun _ => .ok ["alice", "hunter2"]⟩

/-- A filesystem on which everything exists but the credentials file has
a single line. -/
def envShortCreds : Env := ⟨fun _ => true, fun _ => true, fun _ => .ok ["alice"]⟩

/-- A filesystem on which everything exists but every read raises
`OSError`. -/
def envReadFails : Env := ⟨fun _ => true, fun _ => true, fun _ => .error ()⟩

/-- A filesystem on which everything exists and the credentials file has
two lines. -/
def envGood : Env := ⟨fun _ => true, fun _ => true, fun _ => .ok ["alice", "hunter2"]⟩

/-! Helper lemmas about the polling loop and the workflow trace. -/

/-- A COMPLETED status exits the polling loop at once: success, no
further events. -/
theorem pollLoop_completed (o : Oracle) (k fuel : Nat) :
    pollLoop o "COMPLETED" k (fuel + 1) = (.completed, []) := by
  simp [pollLoop]

/-- A status outside the whitelist makes the polling loop fetch the
process output, print, and fail with that output; no further polling. -/
theorem pollLoop_nonwhitelisted (o : Oracle) (status : String) (k fuel : Nat)
    (h : status ∉ whitelist) :
    pollLoop o status k (fuel + 1) =
      (.failed o.processOutput,
       [.call (.get_process_output o.processId),
        .printed "The process was not completed normally"]) := by
  have h1 : status ≠ "COMPLETED" := by
    intro e; exact h (by rw [e]; simp [whitelist])
  simp [pollLoop, h1, h]

/-- When the polling loop reports completion, `run_cloudos_task`
succeeds and its trace is the creation prefix, the polling events, the
output fetch, and the optional download. -/
theorem run_cloudos_task_of_completed (inp : Path) (out : Option Path)
    (gpu : Bool) (u pw : String) (o : Oracle) (fuel : Nat)
    (h : (pollLoop o o.createStatus 0 fuel).1 = .completed) :
    run_cloudos_task inp out gpu u pw o fuel =
      (.ok, preEvents inp out gpu u pw ++ (pollLoop o o.createStatus 0 fuel).2
        ++ successEvents o ++ downloadEvents out) := by
  unfold run_cloudos_task
  rcases hp : pollLoop o o.createStatus 0 fuel with ⟨r, tr⟩
  rw [hp] at h
  simp only at h
  subst h
  rfl

/-- The polling loop never performs a `get_file` download. -/
theorem pollLoop_no_get_file (o : Oracle) :
    ∀ (fuel : Nat) (status : String) (k : Nat),
      ((pollLoop o status k fuel).2.all fun e => !isGetFile e) = true := by
  intro fuel
  induction fuel with
  | zero => intro status k; rfl
  | succ n ih =>
      intro status k
      by_cases h1 : status = "COMPLETED"
      · simp [pollLoop, h1]
      · by_cases h2 : status ∈ whitelist
        · simp only [pollLoop, if_neg h1, if_pos h2]
          rw [List.all_cons, ih (o.describeStatus k) (k + 1)]
          rfl
        · simp [pollLoop, h1, h2, isGetFile]

/-- A missing input file makes `process_file` raise the
`FileNotFoundError` of line 21 before anything else happens. -/
theorem process_file_input_missing (env : Env) (inp : Path)
    (out : Option Path) (gpu : Bool) (ud : Path) (o : Oracle) (fuel : Nat)
    (h : env.pathExists inp = false) :
    process_file env inp out gpu ud o fuel =
      (.err (.fileNotFound ("Input file not found: " ++ Path.toString inp)), []) := by
  simp [process_file, h]

/-- Fewer than two credential lines make the unpacking of line 31 raise
`ValueError`. -/
theorem loadCredentials_short (lines : List String) (h : lines.length < 2) :
    loadCredentials (.ok lines) = .unpackError := by
  match lines with
  | [] => rfl
  | [x] => rfl
  | x :: y :: t => exact absurd h (by simp)

/-! Claim theorems. -/

/-- C1: a polling iteration that sees status COMPLETED (from
`create_process` at the first iteration or from any `describe_process`)
exits the loop at once with success and produces no failure event and no
further polling round; `run_cloudos_task` then fetches and reports the
process output and downloads the remote output file exactly when an
output path was requested. -/
theorem completed_is_terminal_success :
    (∀ (o : Oracle) (k fuel : Nat),
      pollLoop o "COMPLETED" k (fuel + 1) = (.completed, [])) ∧
    (∀ (inp : Path) (out : Option Path) (gpu : Bool) (u pw : String)
      (o : Oracle) (fuel : Nat),
      (pollLoop o o.createStatus 0 fuel).1 = .completed →
      run_cloudos_task inp out gpu u pw o fuel =
        (.ok, preEvents inp out gpu u pw ++ (pollLoop o o.createStatus 0 fuel).2
          ++ successEvents o ++ downloadEvents out)) :=
  ⟨pollLoop_completed, run_cloudos_task_of_completed⟩

/-- Witness for C1, at an oracle that reports COMPLETED immediately and
a requested output path. -/
theorem completed_is_terminal_success_witness :
    run_cloudos_task exPath (some outP) true "alice" "hunter2" exOracle 1 =
      (.ok, preEvents exPath (some outP) true "alice" "hunter2"
        ++ (pollLoop exOracle exOracle.createStatus 0 1).2
        ++ successEvents exOracle ++ downloadEvents (some outP)) :=
  completed_is_terminal_success.2 exPath (some outP) true "alice" "hunter2"
    exOracle 1 (by decide)

/-- C2: a polling iteration that sees a status outside
{CREATED, SUBMITTED, RUNNING, COMPLETED} calls `get_process_output`,
reports the failure, and raises a `ValueError` whose message is exactly
that output, with no further `describe_process` call and no further
polling; at the workflow level the task fails with that output as its
error message. -/
theorem nonwhitelisted_status_fails :
    (∀ (o : Oracle) (status : String) (k fuel : Nat),
      status ∉ whitelist →
      pollLoop o status k (fuel + 1) =
        (.failed o.processOutput,
         [.call (.get_process_output o.processId),
          .printed "The process was not completed normally"])) ∧
    (∀ (inp : Path) (out : Option Path) (gpu : Bool) (u pw : String)
      (o : Oracle) (fuel : Nat),
      o.createStatus ∉ whitelist →
      run_cloudos_task inp out gpu u pw o (fuel + 1) =
        (.err (.valueError o.processOutput),
         preEvents inp out gpu u pw ++
           [.call (.get_process_output o.processId),
            .printed "The process was not completed normally"])) := by
  constructor
  · exact pollLoop_nonwhitelisted
  · intro inp out gpu u pw o fuel h
    unfold run_cloudos_task
    rw [pollLoop_nonwhitelisted o o.createStatus 0 fuel h]

/-- Witness for C2, at an oracle whose process is FAILED from the
start. -/
theorem nonwhitelisted_status_fails_witness :
    run_cloudos_task exPath (some outP) false "alice" "hunter2" failOracle 3 =
      (.err (.valueError failOracle.processOutput),
       preEvents exPath (some outP) false "alice" "hunter2" ++
         [.call (.get_process_output failOracle.processId),
          .printed "The process was not completed normally"]) :=
  nonwhitelisted_status_fails.2 exPath (some outP) false "alice" "hunter2"
    failOracle 2 (by decide)

/-- C3: every job submission issues a `create_process` call with cpu
"4", ram "4", command "qiopt", and the fixed solver argument list over
the remote input/output paths, with "--gpu" appended exactly when the
GPU flag was given. -/
theorem create_process_fixed_params :
    ∀ (inp : Path) (out : Option Path) (gpu : Bool) (u pw : String)
      (o : Oracle) (fuel : Nat),
      ∃ rest, (run_cloudos_task inp out gpu u pw o fuel).2 =
          preEvents inp out gpu u pw ++ rest ∧
        (preEvents inp out gpu u pw).get? 5 =
          some (.call (.create_process WORKSPACE_ID IMAGE_NAME "run qiopt"
            "4" "4" (if gpu then 1 else 0) "qiopt"
            (["solve",
              "--matrix", "/workspace/" ++ inp.name,
              "--num-runs", "10",
              "--num-steps", "1000",
              "--output", "/workspace/" ++ outputFilename out,
              "--verbose", "1"]
             ++ (if gpu then ["--gpu"] else [])))) := by
  intro inp out gpu u pw o fuel
  have hargs : default_args inp.name (outputFilename out) gpu =
      ["solve", "--matrix", "/workspace/" ++ inp.name, "--num-runs", "10",
       "--num-steps", "1000", "--output", "/workspace/" ++ outputFilename out,
       "--verbose", "1"] ++ (if gpu then ["--gpu"] else []) := by
    cases gpu <;> simp [default_args]
  have hget : (preEvents inp out gpu u pw).get? 5 =
      some (.call (.create_process WORKSPACE_ID IMAGE_NAME "run qiopt"
        "4" "4" (if gpu then 1 else 0) "qiopt"
        (["solve", "--matrix", "/workspace/" ++ inp.name, "--num-runs", "10",
          "--num-steps", "1000", "--output",
          "/workspace/" ++ outputFilename out, "--verbose", "1"]
         ++ (if gpu then ["--gpu"] else [])))) := by
    simp [preEvents, hargs]
  unfold run_cloudos_task
  rcases hp : pollLoop o o.createStatus 0 fuel with ⟨r, tr⟩
  cases r with
  | completed =>
      exact ⟨tr ++ successEvents o ++ downloadEvents out, by simp, hget⟩
  | failed m => exact ⟨tr, by simp, hget⟩
  | outOfFuel => exact ⟨tr, by simp, hget⟩

/-- Counterexample to C4 as stated: with `run_id = 5` and no output
path, a run whose input file is missing does not fail with a
file-not-found error — it crashes with an uncaught `AttributeError` from
`None.with_name` before the input check runs, printing nothing and
calling nothing. -/
theorem missing_input_counterexample :
    envNothing.pathExists exPath = false ∧
    main ⟨exPath, none, udP, false, 5⟩ envNothing exOracle 1 =
      (.crashed (.attributeError noneWithNameMsg), []) := by
  exact ⟨rfl, by decide⟩

/-- C4 (amended): a run whose input file is missing never performs any
remote-client operation; and whenever the run-id prefixing step does not
itself crash first (run_id is the sentinel -1, or an output file was
given), it fails with the file-not-found error naming the input path and
exits with code 1. -/
theorem missing_input_fails_fast :
    ∀ (a : Args) (env : Env) (o : Oracle) (fuel : Nat),
      env.pathExists a.input_file = false →
      ((a.run_id = -1 ∨ a.output_file ≠ none) →
        main a env o fuel =
          (.exited 1,
           [.printed ("Error: " ++ ("Input file not found: "
             ++ Path.toString a.input_file))])) ∧
      ((main a env o fuel).2.all fun e => !isClientCall e) = true := by
  intro a env o fuel h
  by_cases hr : a.run_id = -1
  · have hmain : main a env o fuel =
        (.exited 1, [.printed ("Error: " ++ ("Input file not found: "
          ++ Path.toString a.input_file))]) := by
      simp [main, resolveOutputPath, hr,
        process_file_input_missing env a.input_file a.output_file a.gpu
          a.user_data_file o fuel h, PyError.msg]
    exact ⟨fun _ => hmain, by rw [hmain]; rfl⟩
  · cases hout : a.output_file with
    | none =>
        have hmain : main a env o fuel =
            (.crashed (.attributeError noneWithNameMsg), []) := by
          simp [main, resolveOutputPath, hr, hout]
        refine ⟨fun hc => ?_, by rw [hmain]; rfl⟩
        rcases hc with hc | hc
        · exact absurd hc hr
        · exact absurd rfl hc
    | some p =>
        have hmain : main a env o fuel =
            (.exited 1, [.printed ("Error: " ++ ("Input file not found: "
              ++ Path.toString a.input_file))]) := by
          simp [main, resolveOutputPath, hr, hout,
            process_file_input_missing env a.input_file
              (some (p.with_name (ToString.toString a.run_id ++ "_" ++ p.name)))
              a.gpu a.user_data_file o fuel h, PyError.msg]
        exact ⟨fun _ => hmain, by rw [hmain]; rfl⟩

/-- Witness for C4 (amended), at a run with run_id -1 and a missing
input file. -/
theorem missing_input_fails_fast_witness :
    main ⟨exPath, none, udP, false, -1⟩ envNothing exOracle 1 =
      (.exited 1,
       [.printed ("Error: " ++ ("Input file not found: "
         ++ Path.toString exPath))]) :=
  (missing_input_fails_fast ⟨exPath, none, udP, false, -1⟩ envNothing exOracle 1
    rfl).1 (Or.inl rfl)

/-- C5: with the input file present, the output directory present, and
the user-data file missing, `process_file` does raise a
`FileNotFoundError`, but its message interpolates the OUTPUT path's
parent directory ("out") instead of the missing credentials path
("creds/USER_DATA.txt") — the f-string at line 27 names the wrong
path. -/
theorem user_data_error_names_output_dir :
    envNoUserData.pathExists udP = false ∧
    envNoUserData.pathExists exPath = true ∧
    envNoUserData.dirExists outP.parent = true ∧
    process_file envNoUserData exPath (some outP) false udP exOracle 1 =
      (.err (.fileNotFound "User data file does not exist: out"), []) := by
  exact ⟨by decide, by decide, rfl, by decide⟩

/-- C6: with no output path, `run_cloudos_task` never calls `get_file`
(no local download), and the remote output filename embedded in the
solver arguments is "output.json". -/
theorem no_output_file_no_download :
    ∀ (inp : Path) (gpu : Bool) (u pw : String) (o : Oracle) (fuel : Nat),
      ((run_cloudos_task inp none gpu u pw o fuel).2.all
        fun e => !isGetFile e) = true ∧
      outputFilename none = "output.json" ∧
      (preEvents inp none gpu u pw).get? 5 =
        some (.call (.create_process WORKSPACE_ID IMAGE_NAME "run qiopt"
          "4" "4" (if gpu then 1 else 0) "qiopt"
          (default_args inp.name "output.json" gpu))) := by
  intro inp gpu u pw o fuel
  refine ⟨?_, rfl, by simp [preEvents, outputFilename]⟩
  have hpre : ((preEvents inp none gpu u pw).all fun e => !isGetFile e) = true := by
    simp [preEvents, isGetFile]
  have hpoll := pollLoop_no_get_file o fuel o.createStatus 0
  unfold run_cloudos_task
  rcases hp : pollLoop o o.createStatus 0 fuel with ⟨r, tr⟩
  rw [hp] at hpoll
  cases r with
  | completed =>
      simp only [List.all_append, hpre, hpoll]
      rfl
  | failed m =>
      simp only [List.all_append, hpre, hpoll]
      rfl
  | outOfFuel =>
      simp only [List.all_append, hpre, hpoll]
      rfl

/-- C7: when run_id is not the sentinel -1 and an output path is given,
the local output filename becomes "{run_id}_{original name}" (same
directory); when run_id is the sentinel -1, the output path is passed
through unchanged. -/
theorem run_id_prefixes_output_name :
    (∀ (rid : Int) (p : Path), rid ≠ -1 →
      resolveOutputPath rid (some p) =
        .ok (some ⟨p.parent, ToString.toString rid ++ "_" ++ p.name⟩)) ∧
    (∀ out : Option Path, resolveOutputPath (-1) out = .ok out) := by
  constructor
  · intro rid p h
    simp [resolveOutputPath, h, Path.with_name]
  · intro out
    simp [resolveOutputPath]

/-- Witness for C7, at run id 7 and output filename "res.json". -/
theorem run_id_prefixes_output_name_witness :
    resolveOutputPath 7 (some outP) = .ok (some ⟨"out", "7_res.json"⟩) := by
  rw [run_id_prefixes_output_name.1 7 outP (by decide)]
  rfl

/-- C8: when the credentials file exists and is readable but holds fewer
than two lines, the unpacking raises a `ValueError`, which the generic
handler of the main block turns into an "unexpected error" message and
exit code 1 — the run never silently proceeds with partial values (no
client call appears in the trace). -/
theorem short_credentials_fail :
    ∀ (a : Args) (env : Env) (o : Oracle) (fuel : Nat) (lines : List String),
      a.run_id = -1 →
      env.pathExists a.input_file = true →
      checkOutputDir env a.output_file = none →
      env.pathExists a.user_data_file = true →
      env.readLines a.user_data_file = .ok lines →
      lines.length < 2 →
      main a env o fuel =
        (.exited 1,
         [.printed ("An unexpected error occurred: " ++ unpackMsg)]) ∧
      MainResult.exitCode (main a env o fuel).1 = some 1 := by
  intro a env o fuel lines h1 h2 h3 h4 h5 h6
  have hload : loadCredentials (env.readLines a.user_data_file) = .unpackError := by
    rw [h5]
    exact loadCredentials_short lines h6
  have hproc : process_file env a.input_file a.output_file a.gpu
      a.user_data_file o fuel = (.err (.valueError unpackMsg), []) := by
    simp [process_file, h2, h3, h4, hload]
  have hmain : main a env o fuel =
      (.exited 1,
       [.printed ("An unexpected error occurred: " ++ unpackMsg)]) := by
    simp [main, resolveOutputPath, h1, hproc, PyError.msg]
  exact ⟨hmain, by rw [hmain]; rfl⟩

/-- Witness for C8, at a credentials file holding the single line
"alice". -/
theorem short_credentials_fail_witness :
    main ⟨exPath, none, udP, false, -1⟩ envShortCreds exOracle 1 =
      (.exited 1,
       [.printed ("An unexpected error occurred: " ++ unpackMsg)]) :=
  (short_credentials_fail ⟨exPath, none, udP, false, -1⟩ envShortCreds exOracle 1
    ["alice"] rfl rfl rfl rfl rfl (by decide)).1

/-- Counterexample to C9 as stated: with every path present but every
read raising `OSError`, the loader logs the failure without raising, yet
the run does NOT proceed to remote authentication — the trace holds no
client call at all (no `login`); the run dies on the unbound credential
variables with an "unexpected error" and exit code 1. -/
theorem oserror_no_login_counterexample :
    envReadFails.readLines udP = .error () ∧
    main ⟨exPath, none, udP, false, -1⟩ envReadFails exOracle 5 =
      (.exited 1,
       [.printed ("ERROR: Could not open/read file: " ++ udP.name),
        .printed ("An unexpected error occurred: " ++ unboundMsg)]) ∧
    ((main ⟨exPath, none, udP, false, -1⟩ envReadFails exOracle 5).2.all
      fun e => !isClientCall e) = true := by
  exact ⟨rfl, by decide, by decide⟩

/-- C9 (amended): when the credentials file exists but opening/reading
it raises an `OSError`, `process_file` logs the read failure without
raising it; passing the never-bound credential variables on then raises
an `UnboundLocalError`, so the run fails before any remote
authentication is attempted (the trace holds only the logged message),
and the main block exits with code 1. -/
theorem oserror_logged_then_unbound :
    ∀ (a : Args) (env : Env) (o : Oracle) (fuel : Nat),
      a.run_id = -1 →
      env.pathExists a.input_file = true →
      checkOutputDir env a.output_file = none →
      env.pathExists a.user_data_file = true →
      env.readLines a.user_data_file = .error () →
      process_file env a.input_file a.output_file a.gpu
          a.user_data_file o fuel =
        (.err (.unboundLocal unboundMsg),
         [.printed ("ERROR: Could not open/read file: " ++ a.user_data_file.name)]) ∧
      main a env o fuel =
        (.exited 1,
         [.printed ("ERROR: Could not open/read file: " ++ a.user_data_file.name),
          .printed ("An unexpected error occurred: " ++ unboundMsg)]) := by
  intro a env o fuel h1 h2 h3 h4 h5
  have hproc : process_file env a.input_file a.output_file a.gpu
      a.user_data_file o fuel =
      (.err (.unboundLocal unboundMsg),
       [.printed ("ERROR: Could not open/read file: " ++ a.user_data_file.name)]) := by
    simp [process_file, h2, h3, h4, h5, loadCredentials]
  refine ⟨hproc, ?_⟩
  simp [main, resolveOutputPath, h1, hproc, PyError.msg]

/-- Witness for C9 (amended), at a filesystem whose reads all raise
`OSError`. -/
theorem oserror_logged_then_unbound_witness :
    main ⟨exPath, none, udP, false, -1⟩ envReadFails exOracle 5 =
      (.exited 1,
       [.printed ("ERROR: Could not open/read file: " ++ udP.name),
        .printed ("An unexpected error occurred: " ++ unboundMsg)]) :=
  (oserror_logged_then_unbound ⟨exPath, none, udP, false, -1⟩ envReadFails
    exOracle 5 rfl rfl rfl rfl rfl).2

/-- C10: when run_id is given a value other than the sentinel -1 and no
output file was given, the main block crashes computing the prefixed
filename (`None.with_name`) before the `try` block, so before any
validation or client call (empty trace); the uncaught exception makes
the interpreter exit with code 1. -/
theorem run_id_without_output_crashes :
    ∀ (a : Args) (env : Env) (o : Oracle) (fuel : Nat),
      a.run_id ≠ -1 → a.output_file = none →
      main a env o fuel = (.crashed (.attributeError noneWithNameMsg), []) ∧
      MainResult.exitCode (main a env o fuel).1 = some 1 := by
  intro a env o fuel h1 h2
  have hres : resolveOutputPath a.run_id a.output_file =
      .error (.attributeError noneWithNameMsg) := by
    simp [resolveOutputPath, h1, h2]
  have hmain : main a env o fuel =
      (.crashed (.attributeError noneWithNameMsg), []) := by
    simp [main, hres]
  exact ⟨hmain, by rw [hmain]; rfl⟩

/-- Witness for C10, at run id 5 with no output file. -/
theorem run_id_without_output_crashes_witness :
    main ⟨exPath, none, udP, false, 5⟩ envGood exOracle 1 =
      (.crashed (.attributeError noneWithNameMsg), []) :=
  (run_id_without_output_crashes ⟨exPath, none, udP, false, 5⟩ envGood exOracle 1
    (by decide) rfl).1

end QioptCli
